import Mathlib

/-!
Shallow embedding of the liveness-tracking and notification-debouncing core
of `src/server.js` (stream-notifier): per-entity live flags for the push
platform (TikTok) and the polled platform (Twitch), a 90 s debounce timer
armed by `debounceNotify`, the push-connection event handlers
(`streamStart`, `streamEnd`, `error`), the Twitch poll (`checkTwitch`)
with its lazily cached token (`refreshTwitchToken`), and the webhook
sender (`sendNotification`).

Timers are modelled explicitly: `timeout` is the handle stored in
`liveStatus[user].timeout`, and `pendingTimers` is the list of scheduled,
not-yet-fired `setTimeout` callbacks; a `fire h` event runs the callback
of handle `h` when that callback is still scheduled.
-/

namespace StreamNotifier

/-- One structured log line, as produced by `log(platform, level, user, msg)`
or by the raw `console.error` calls of the debug branches. -/
structure LogEntry where
  platform : String
  level : String
  user : String
  msg : String
  deriving Repr, DecidableEq

/-- The two platforms whose flags live in `liveStatus[user]`. -/
inductive Platform where
  | tiktok : Platform
  | twitch : Platform
  deriving Repr, DecidableEq

/-- Per-entity state: the `liveStatus[user]` record (`tiktok`, `twitch`,
`timeout`), the scheduled-but-unfired debounce callbacks (`pendingTimers`)
with a fresh-handle counter, the per-connection `lastErrorAt` map of the
TikTok error handler, the webhook payloads sent so far, and the log. -/
structure EntityState where
  tiktok : Bool
  twitch : Bool
  timeout : Option Nat
  pendingTimers : List Nat
  nextHandle : Nat
  lastErrorAt : List (String × Nat)
  sent : List String
  logs : List LogEntry
  deriving Repr, DecidableEq

/-- `liveStatus` entry at startup: `{ tiktok: false, twitch: false, timeout: null }`. -/
def initState : EntityState :=
  { tiktok := false
    twitch := false
    timeout := none
    pendingTimers := []
    nextHandle := 0
    lastErrorAt := []
    sent := []
    logs := [] }

/-- Append one structured log line (the `log` helper of `server.js`). -/
def logLine (platform level user msg : String) (s : EntityState) : EntityState :=
  { s with logs := s.logs ++ [⟨platform, level, user, msg⟩] }

/-- `liveStatus[username][platform] = b`. -/
def setFlag (p : Platform) (b : Bool) (s : EntityState) : EntityState :=
  match p with
  | .tiktok => { s with tiktok := b }
  | .twitch => { s with twitch := b }

/-- The message content computed by `sendNotification` from the two flags;
`none` when neither platform is live (the early `return`, no request sent). -/
def notificationContent (username : String) (t tw : Bool) : Option String :=
  if t && tw then
    some ("🚨 **@" ++ username ++ " is now live on Twitch & TikTok!**\n" ++
      "🔴 Twitch: https://twitch.tv/" ++ username ++ "\n" ++
      "🎥 TikTok: https://www.tiktok.com/@" ++ username ++ "/live")
  else if tw then
    some ("🔴 **@" ++ username ++ " is live on Twitch!** https://twitch.tv/" ++ username)
  else if t then
    some ("🎥 **@" ++ username ++ " is live on TikTok!** https://www.tiktok.com/@" ++
      username ++ "/live")
  else
    none

/-- `sendNotification(username)`: read the flags fresh from `liveStatus`,
return without a request if neither is live, otherwise POST the content to
the webhook and log `[DISCORD] [NOTIFY]`. -/
def sendNotification (username : String) (s : EntityState) : EntityState :=
  match notificationContent username s.tiktok s.twitch with
  | none => s
  | some c => logLine "DISCORD" "NOTIFY" username "" { s with sent := s.sent ++ [c] }

/-- `debounceNotify(username, platform)`: set the platform flag to `true`;
if a timeout handle is already stored, return; otherwise schedule a new
90 s callback and store its handle. -/
def debounceNotify (p : Platform) (s : EntityState) : EntityState :=
  let s := setFlag p true s
  match s.timeout with
  | some _ => s
  | none =>
    { s with
      timeout := some s.nextHandle
      pendingTimers := s.pendingTimers ++ [s.nextHandle]
      nextHandle := s.nextHandle + 1 }

/-- Body of the `setTimeout` callback armed by `debounceNotify`: run
`sendNotification(username)` (which reads the current flags) and null out
the stored timeout handle; the fired callback is no longer scheduled. -/
def fireCallback (username : String) (h : Nat) (s : EntityState) : EntityState :=
  let s := sendNotification username s
  { s with timeout := none, pendingTimers := s.pendingTimers.erase h }

/-- Outcome of the one `fetch` of `checkTwitch` for one entity:
the fetch itself rejects (`netError`), `res.json()` throws (`badJson`),
or a parsed JSON body arrives with HTTP status `status` and
`dataArr = some n` when `data.data` is an array of length `n`
(`none` when `data.data` is not an array). -/
inductive PollResponse where
  | netError (errName errMsg : String) : PollResponse
  | badJson (errName errMsg : String) : PollResponse
  | json (status : Nat) (dataArr : Option Nat) : PollResponse
  deriving Repr, DecidableEq

/-- `isLive = Array.isArray(data.data) && data.data.length > 0`. -/
def isLiveOf : Option Nat → Bool
  | some n => decide (0 < n)
  | none => false

/-- The part of `checkTwitch` past the token guard: the `polling…` log and
the `try` block. The HTTP status of a parsed response is never inspected;
a caught error is logged in the debug or the plain format. -/
def checkBody (debugTwitch : Bool) (username : String) (resp : PollResponse)
    (s : EntityState) : EntityState :=
  let s := logLine "Twitch" "INFO" username "polling…" s
  match resp with
  | .netError n m =>
    logLine "Twitch" "ERROR" username (if debugTwitch then n ++ ": " ++ m else m) s
  | .badJson n m =>
    logLine "Twitch" "ERROR" username (if debugTwitch then n ++ ": " ++ m else m) s
  | .json _ dataArr =>
    let isLive := isLiveOf dataArr
    let s := logLine "Twitch" "STATUS" username ("live=" ++ toString isLive) s
    let s :=
      if isLive && !s.twitch then
        debounceNotify .twitch (logLine "Twitch" "LIVE" username "" s)
      else s
    { s with twitch := isLive }

/-- `lastErrorAt[key] || 0`. -/
def lookupLast (key : String) : List (String × Nat) → Nat
  | [] => 0
  | (k, v) :: rest => if k == key then v else lookupLast key rest

/-- `lastErrorAt[key] = now`. -/
def setLast (key : String) (now : Nat) : List (String × Nat) → List (String × Nat)
  | [] => [(key, now)]
  | (k, v) :: rest => if k == key then (key, now) :: rest else (k, v) :: setLast key now rest

/-- The throttle key `username:errName:errMsg` of the TikTok error handler. -/
def errKey (username errName errMsg : String) : String :=
  username ++ ":" ++ errName ++ ":" ++ errMsg

/-- The `conn.on("error")` handler: return at once unless `debugTikTok`;
suppress a duplicate of an identical error seen less than 30 s ago;
otherwise record the time and log the error header. Liveness flags,
timers and sent notifications are never touched. -/
def onErrorEvent (debugTikTok : Bool) (username errName errMsg : String) (now : Nat)
    (s : EntityState) : EntityState :=
  if !debugTikTok then s
  else
    let key := errKey username errName errMsg
    if now - lookupLast key s.lastErrorAt < 30000 then s
    else
      logLine "TikTok" "ERROR" username (errName ++ ": " ++ errMsg)
        { s with lastErrorAt := setLast key now s.lastErrorAt }

/-- The per-entity events that drive the liveness record: the TikTok
`streamStart`, `streamEnd` and `error` handlers, one `checkTwitch`
invocation past the token guard with a given fetch outcome, and the
expiry of the debounce callback with handle `h`. -/
inductive Event where
  | streamStart : Event
  | streamEnd : Event
  | pushError (errName errMsg : String) (now : Nat) : Event
  | poll (resp : PollResponse) : Event
  | fire (h : Nat) : Event
  deriving Repr, DecidableEq

/-- `true` exactly on timer-expiry events. -/
def Event.isFire : Event → Bool
  | .fire _ => true
  | _ => false

/-- One step of the per-entity machine. -/
def step (debugTikTok debugTwitch : Bool) (username : String) (e : Event)
    (s : EntityState) : EntityState :=
  match e with
  | .streamStart => debounceNotify .tiktok (logLine "TikTok" "LIVE" username "" s)
  | .streamEnd => logLine "TikTok" "INFO" username "stream ended" { s with tiktok := false }
  | .pushError n m now => onErrorEvent debugTikTok username n m now s
  | .poll resp => checkBody debugTwitch username resp s
  | .fire h => if h ∈ s.pendingTimers then fireCallback username h s else s

/-- Run a list of events left to right. -/
def run (debugTikTok debugTwitch : Bool) (username : String) (evs : List Event)
    (s : EntityState) : EntityState :=
  evs.foldl (fun acc e => step debugTikTok debugTwitch username e acc) s

/-- `true` when no event of the list is a timer expiry. -/
def fireFree (evs : List Event) : Bool :=
  evs.all (fun e => !e.isFire)

/-- Relation between a stored timeout handle and the list of scheduled
debounce callbacks: the handle is `none` exactly when nothing is
scheduled, and the scheduled callback, when present, is unique and is the
stored one. -/
def InvP : Option Nat → List Nat → Prop
  | none, l => l = []
  | some h, l => l = [h]

instance (o : Option Nat) (l : List Nat) : Decidable (InvP o l) :=
  match o with
  | none => inferInstanceAs (Decidable (l = []))
  | some h => inferInstanceAs (Decidable (l = [h]))

/-- The one-pending-timer invariant of an entity state. -/
def Inv (s : EntityState) : Prop :=
  InvP s.timeout s.pendingTimers

instance (s : EntityState) : Decidable (Inv s) :=
  inferInstanceAs (Decidable (InvP s.timeout s.pendingTimers))

/-- Outcome of `refreshTwitchToken`: the exchange request (or its JSON
parse) throws, or it completes and `access_token` is read from the body
(`none` when the field is absent). -/
inductive ExchangeOutcome where
  | throw : ExchangeOutcome
  | ok (tok : Option String) : ExchangeOutcome
  deriving Repr, DecidableEq

/-- JavaScript truthiness of the `twitchAccessToken` variable
(`null`/`undefined` and the empty string are falsy). -/
def tokenTruthy : Option String → Bool
  | none => false
  | some s => !(s == "")

/-- `checkTwitch(username)`: when the cached token is falsy, first
`await refreshTwitchToken()` — a throw there aborts the whole call before
the `polling…` log (nothing is caught at this point); otherwise the
(possibly refreshed) token is kept and the body runs. Returns the new
value of `twitchAccessToken` with the new entity state. -/
def checkTwitch (debugTwitch : Bool) (username : String) (exch : ExchangeOutcome)
    (resp : PollResponse) (token : Option String) (s : EntityState) :
    Option String × EntityState :=
  if tokenTruthy token then
    (token, checkBody debugTwitch username resp s)
  else
    match exch with
    | .throw => (token, s)
    | .ok t => (t, checkBody debugTwitch username resp s)

/-- One entity of a poll cycle: its name, the outcome a token exchange
would have, the outcome of its status fetch, and its state before. -/
structure PollJob where
  user : String
  exch : ExchangeOutcome
  resp : PollResponse
  st : EntityState
  deriving Repr, DecidableEq

/-- `streamers.forEach(checkTwitch)`: every entity is checked with its own
fetch outcome, the token threading through the cycle. -/
def pollCycle (debugTwitch : Bool) (token : Option String) :
    List PollJob → Option String × List EntityState
  | [] => (token, [])
  | j :: rest =>
    let r1 := checkTwitch debugTwitch j.user j.exch j.resp token j.st
    let r2 := pollCycle debugTwitch r1.1 rest
    (r2.1, r1.2 :: r2.2)

/-! ### Basic preservation lemmas -/

theorem setFlag_timeout (p : Platform) (b : Bool) (s : EntityState) :
    (setFlag p b s).timeout = s.timeout := by
  cases p <;> rfl

theorem setFlag_pending (p : Platform) (b : Bool) (s : EntityState) :
    (setFlag p b s).pendingTimers = s.pendingTimers := by
  cases p <;> rfl

theorem setFlag_sent (p : Platform) (b : Bool) (s : EntityState) :
    (setFlag p b s).sent = s.sent := by
  cases p <;> rfl

theorem setFlag_nextHandle (p : Platform) (b : Bool) (s : EntityState) :
    (setFlag p b s).nextHandle = s.nextHandle := by
  cases p <;> rfl

theorem debounceNotify_sent (p : Platform) (s : EntityState) :
    (debounceNotify p s).sent = s.sent := by
  cases p <;> cases hs : s.timeout <;> simp [debounceNotify, setFlag, hs]

theorem debounceNotify_timeout_some (p : Platform) (s : EntityState) (h : Nat)
    (hs : s.timeout = some h) : (debounceNotify p s).timeout = some h := by
  cases p <;> simp [debounceNotify, setFlag, hs]

theorem debounceNotify_pending_some (p : Platform) (s : EntityState) (h : Nat)
    (hs : s.timeout = some h) : (debounceNotify p s).pendingTimers = s.pendingTimers := by
  cases p <;> simp [debounceNotify, setFlag, hs]

theorem debounceNotify_timeout_none (p : Platform) (s : EntityState)
    (hs : s.timeout = none) : (debounceNotify p s).timeout = some s.nextHandle := by
  cases p <;> simp [debounceNotify, setFlag, hs]

theorem debounceNotify_pending_none (p : Platform) (s : EntityState)
    (hs : s.timeout = none) :
    (debounceNotify p s).pendingTimers = s.pendingTimers ++ [s.nextHandle] := by
  cases p <;> simp [debounceNotify, setFlag, hs]

theorem debounceNotify_tiktok_tiktok (s : EntityState) :
    (debounceNotify .tiktok s).tiktok = true := by
  cases hs : s.timeout <;> simp [debounceNotify, setFlag, hs]

theorem debounceNotify_tiktok_of_twitch (s : EntityState) :
    (debounceNotify .twitch s).tiktok = s.tiktok := by
  cases hs : s.timeout <;> simp [debounceNotify, setFlag, hs]

theorem debounceNotify_twitch_of_tiktok (s : EntityState) :
    (debounceNotify .tiktok s).twitch = s.twitch := by
  cases hs : s.timeout <;> simp [debounceNotify, setFlag, hs]

theorem sendNotification_sent (u : String) (s : EntityState) :
    (sendNotification u s).sent =
      s.sent ++ (notificationContent u s.tiktok s.twitch).toList := by
  unfold sendNotification
  cases hc : notificationContent u s.tiktok s.twitch <;> simp [logLine]

theorem sendNotification_pending (u : String) (s : EntityState) :
    (sendNotification u s).pendingTimers = s.pendingTimers := by
  unfold sendNotification
  cases hc : notificationContent u s.tiktok s.twitch <;> simp [logLine]

theorem sendNotification_timeout (u : String) (s : EntityState) :
    (sendNotification u s).timeout = s.timeout := by
  unfold sendNotification
  cases hc : notificationContent u s.tiktok s.twitch <;> simp [logLine]

theorem fireCallback_timeout (u : String) (h : Nat) (s : EntityState) :
    (fireCallback u h s).timeout = none := rfl

theorem fireCallback_pending (u : String) (h : Nat) (s : EntityState) :
    (fireCallback u h s).pendingTimers = s.pendingTimers.erase h := by
  have hd : (fireCallback u h s).pendingTimers =
      (sendNotification u s).pendingTimers.erase h := rfl
  rw [hd, sendNotification_pending]

theorem fireCallback_sent (u : String) (h : Nat) (s : EntityState) :
    (fireCallback u h s).sent =
      s.sent ++ (notificationContent u s.tiktok s.twitch).toList := by
  unfold fireCallback
  exact sendNotification_sent u s

theorem onErrorEvent_frame (dbg : Bool) (u n m : String) (now : Nat) (s : EntityState) :
    (onErrorEvent dbg u n m now s).tiktok = s.tiktok ∧
    (onErrorEvent dbg u n m now s).twitch = s.twitch ∧
    (onErrorEvent dbg u n m now s).timeout = s.timeout ∧
    (onErrorEvent dbg u n m now s).pendingTimers = s.pendingTimers ∧
    (onErrorEvent dbg u n m now s).sent = s.sent := by
  by_cases hd : dbg
  · by_cases ht : now - lookupLast (errKey u n m) s.lastErrorAt < 30000
    · simp [onErrorEvent, hd, ht]
    · simp [onErrorEvent, hd, ht, logLine]
  · simp [onErrorEvent, hd]

theorem checkBody_sent (dbg : Bool) (u : String) (resp : PollResponse) (s : EntityState) :
    (checkBody dbg u resp s).sent = s.sent := by
  cases resp with
  | netError n m => simp [checkBody, logLine]
  | badJson n m => simp [checkBody, logLine]
  | json st d =>
    by_cases hg : (isLiveOf d && !s.twitch) = true
    · simp [checkBody, logLine, hg, debounceNotify_sent]
    · simp [checkBody, logLine, hg]

theorem checkBody_tiktok (dbg : Bool) (u : String) (resp : PollResponse) (s : EntityState) :
    (checkBody dbg u resp s).tiktok = s.tiktok := by
  cases resp with
  | netError n m => simp [checkBody, logLine]
  | badJson n m => simp [checkBody, logLine]
  | json st d =>
    by_cases hg : (isLiveOf d && !s.twitch) = true
    · simp [checkBody, logLine, hg, debounceNotify_tiktok_of_twitch]
    · simp [checkBody, logLine, hg]

theorem checkBody_timeout_some (dbg : Bool) (u : String) (resp : PollResponse)
    (s : EntityState) (h : Nat) (hs : s.timeout = some h) :
    (checkBody dbg u resp s).timeout = some h := by
  cases resp with
  | netError n m => simp [checkBody, logLine, hs]
  | badJson n m => simp [checkBody, logLine, hs]
  | json st d =>
    by_cases hg : (isLiveOf d && !s.twitch) = true
    · simp [checkBody, logLine, hg]
      exact debounceNotify_timeout_some _ _ h hs
    · simp [checkBody, logLine, hg, hs]

theorem checkBody_pending_some (dbg : Bool) (u : String) (resp : PollResponse)
    (s : EntityState) (h : Nat) (hs : s.timeout = some h) :
    (checkBody dbg u resp s).pendingTimers = s.pendingTimers := by
  cases resp with
  | netError n m => simp [checkBody, logLine]
  | badJson n m => simp [checkBody, logLine]
  | json st d =>
    by_cases hg : (isLiveOf d && !s.twitch) = true
    · simp [checkBody, logLine, hg]
      exact debounceNotify_pending_some _ _ h hs
    · simp [checkBody, logLine, hg]

theorem checkBody_twitch_json (dbg : Bool) (u : String) (st : Nat) (d : Option Nat)
    (s : EntityState) : (checkBody dbg u (.json st d) s).twitch = isLiveOf d := by
  by_cases hg : (isLiveOf d && !s.twitch) = true
  · simp [checkBody, logLine, hg]
  · simp [checkBody, logLine, hg]

theorem checkBody_timeout_err (dbg : Bool) (u n m : String) (s : EntityState) :
    (checkBody dbg u (.netError n m) s).timeout = s.timeout ∧
    (checkBody dbg u (.badJson n m) s).timeout = s.timeout ∧
    (checkBody dbg u (.netError n m) s).pendingTimers = s.pendingTimers ∧
    (checkBody dbg u (.badJson n m) s).pendingTimers = s.pendingTimers := by
  refine ⟨?_, ?_, ?_, ?_⟩ <;> simp [checkBody, logLine]

theorem checkBody_timeout_noguard (dbg : Bool) (u : String) (st : Nat) (d : Option Nat)
    (s : EntityState) (hg : (isLiveOf d && !s.twitch) = false) :
    (checkBody dbg u (.json st d) s).timeout = s.timeout ∧
    (checkBody dbg u (.json st d) s).pendingTimers = s.pendingTimers := by
  constructor <;> simp [checkBody, logLine, hg]

theorem checkBody_arm (dbg : Bool) (u : String) (st : Nat) (d : Option Nat)
    (s : EntityState) (hs : s.timeout = none) (hg : (isLiveOf d && !s.twitch) = true) :
    (checkBody dbg u (.json st d) s).timeout = some s.nextHandle ∧
    (checkBody dbg u (.json st d) s).pendingTimers = s.pendingTimers ++ [s.nextHandle] := by
  constructor
  · simp [checkBody, logLine, hg]
    exact debounceNotify_timeout_none _ _ hs
  · simp [checkBody, logLine, hg]
    exact debounceNotify_pending_none _ _ hs

/-! ### Step-level lemmas -/

theorem step_fire_mem (d1 d2 : Bool) (u : String) (h : Nat) (s : EntityState)
    (hm : h ∈ s.pendingTimers) : step d1 d2 u (.fire h) s = fireCallback u h s := by
  simp [step, hm]

theorem step_fire_not_mem (d1 d2 : Bool) (u : String) (h : Nat) (s : EntityState)
    (hm : h ∉ s.pendingTimers) : step d1 d2 u (.fire h) s = s := by
  simp [step, hm]

theorem step_sent_nonfire (d1 d2 : Bool) (u : String) (e : Event) (s : EntityState)
    (he : e.isFire = false) : (step d1 d2 u e s).sent = s.sent := by
  cases e with
  | streamStart =>
    show (debounceNotify .tiktok (logLine "TikTok" "LIVE" u "" s)).sent = s.sent
    rw [debounceNotify_sent]
    rfl
  | streamEnd => rfl
  | pushError n m now => exact (onErrorEvent_frame d1 u n m now s).2.2.2.2
  | poll resp => exact checkBody_sent d2 u resp s
  | fire h => simp [Event.isFire] at he

theorem step_window (d1 d2 : Bool) (u : String) (e : Event) (s : EntityState) (h : Nat)
    (he : e.isFire = false) (hs : s.timeout = some h) :
    (step d1 d2 u e s).timeout = some h ∧
    (step d1 d2 u e s).pendingTimers = s.pendingTimers := by
  cases e with
  | streamStart =>
    constructor
    · show (debounceNotify .tiktok (logLine "TikTok" "LIVE" u "" s)).timeout = some h
      exact debounceNotify_timeout_some _ _ h hs
    · show (debounceNotify .tiktok (logLine "TikTok" "LIVE" u "" s)).pendingTimers =
        s.pendingTimers
      exact debounceNotify_pending_some _ _ h hs
  | streamEnd => exact ⟨hs, rfl⟩
  | pushError n m now =>
    exact ⟨((onErrorEvent_frame d1 u n m now s).2.2.1).trans hs,
      (onErrorEvent_frame d1 u n m now s).2.2.2.1⟩
  | poll resp =>
    exact ⟨checkBody_timeout_some d2 u resp s h hs, checkBody_pending_some d2 u resp s h hs⟩
  | fire h2 => simp [Event.isFire] at he

theorem run_cons (d1 d2 : Bool) (u : String) (e : Event) (evs : List Event)
    (s : EntityState) :
    run d1 d2 u (e :: evs) s = run d1 d2 u evs (step d1 d2 u e s) := rfl

theorem run_window (d1 d2 : Bool) (u : String) (evs : List Event) (s : EntityState)
    (h : Nat) (hf : fireFree evs = true) (hs : s.timeout = some h) :
    (run d1 d2 u evs s).timeout = some h ∧
    (run d1 d2 u evs s).pendingTimers = s.pendingTimers ∧
    (run d1 d2 u evs s).sent = s.sent := by
  induction evs generalizing s with
  | nil => exact ⟨hs, rfl, rfl⟩
  | cons e evs ih =>
    have hall := hf
    simp only [fireFree, List.all_cons, Bool.and_eq_true] at hall
    have hfe : e.isFire = false := by simpa using hall.1
    have hftl : fireFree evs = true := hall.2
    have hw := step_window d1 d2 u e s h hfe hs
    have hsent := step_sent_nonfire d1 d2 u e s hfe
    have hrec := ih (step d1 d2 u e s) hftl hw.1
    rw [run_cons]
    refine ⟨hrec.1, ?_, ?_⟩
    · rw [hrec.2.1, hw.2]
    · rw [hrec.2.2, hsent]

/-! ### The one-pending-timer invariant -/

theorem Inv_step (d1 d2 : Bool) (u : String) (e : Event) (s : EntityState)
    (hi : Inv s) : Inv (step d1 d2 u e s) := by
  cases hs : s.timeout with
  | some h =>
    have hp : s.pendingTimers = [h] := by
      unfold Inv InvP at hi
      rw [hs] at hi
      exact hi
    cases hfe : e.isFire with
    | false =>
      have hw := step_window d1 d2 u e s h hfe hs
      unfold Inv InvP
      rw [hw.1, hw.2, hp]
    | true =>
      cases e with
      | fire h2 =>
        by_cases hm : h2 ∈ s.pendingTimers
        · rw [step_fire_mem d1 d2 u h2 s hm]
          have h2h : h2 = h := by
            rw [hp] at hm
            simpa using hm
          unfold Inv InvP
          rw [fireCallback_timeout, fireCallback_pending, hp, h2h]
          simp
        · rw [step_fire_not_mem d1 d2 u h2 s hm]
          exact hi
      | streamStart => simp [Event.isFire] at hfe
      | streamEnd => simp [Event.isFire] at hfe
      | pushError n m now => simp [Event.isFire] at hfe
      | poll resp => simp [Event.isFire] at hfe
  | none =>
    have hp : s.pendingTimers = [] := by
      unfold Inv InvP at hi
      rw [hs] at hi
      exact hi
    cases e with
    | streamStart =>
      have h1 : (logLine "TikTok" "LIVE" u "" s).timeout = none := hs
      unfold Inv InvP
      show InvP (debounceNotify .tiktok (logLine "TikTok" "LIVE" u "" s)).timeout
        (debounceNotify .tiktok (logLine "TikTok" "LIVE" u "" s)).pendingTimers
      rw [debounceNotify_timeout_none _ _ h1, debounceNotify_pending_none _ _ h1]
      show s.pendingTimers ++ [s.nextHandle] = [s.nextHandle]
      rw [hp]
      rfl
    | streamEnd =>
      unfold Inv InvP
      show InvP s.timeout s.pendingTimers
      rw [hs, hp]
      rfl
    | pushError n m now =>
      have hf := onErrorEvent_frame d1 u n m now s
      unfold Inv InvP
      show InvP (onErrorEvent d1 u n m now s).timeout
        (onErrorEvent d1 u n m now s).pendingTimers
      rw [hf.2.2.1, hf.2.2.2.1, hs, hp]
      rfl
    | poll resp =>
      cases resp with
      | netError n m =>
        have hf := checkBody_timeout_err d2 u n m s
        unfold Inv InvP
        show InvP (checkBody d2 u (.netError n m) s).timeout
          (checkBody d2 u (.netError n m) s).pendingTimers
        rw [hf.1, hf.2.2.1, hs, hp]
        rfl
      | badJson n m =>
        have hf := checkBody_timeout_err d2 u n m s
        unfold Inv InvP
        show InvP (checkBody d2 u (.badJson n m) s).timeout
          (checkBody d2 u (.badJson n m) s).pendingTimers
        rw [hf.2.1, hf.2.2.2, hs, hp]
        rfl
      | json st d =>
        by_cases hg : (isLiveOf d && !s.twitch) = true
        · have ha := checkBody_arm d2 u st d s hs hg
          unfold Inv InvP
          show InvP (checkBody d2 u (.json st d) s).timeout
            (checkBody d2 u (.json st d) s).pendingTimers
          rw [ha.1, ha.2, hp]
          rfl
        · have hn := checkBody_timeout_noguard d2 u st d s (by simpa using hg)
          unfold Inv InvP
          show InvP (checkBody d2 u (.json st d) s).timeout
            (checkBody d2 u (.json st d) s).pendingTimers
          rw [hn.1, hn.2, hs, hp]
          rfl
    | fire h2 =>
      by_cases hm : h2 ∈ s.pendingTimers
      · rw [hp] at hm
        simp at hm
      · rw [step_fire_not_mem d1 d2 u h2 s hm]
        exact hi

theorem Inv_run (d1 d2 : Bool) (u : String) (evs : List Event) (s : EntityState)
    (hi : Inv s) : Inv (run d1 d2 u evs s) := by
  induction evs generalizing s with
  | nil => exact hi
  | cons e evs ih => exact ih (step d1 d2 u e s) (Inv_step d1 d2 u e s hi)

/-! ### Helper lemmas shared by several claims -/

/-- `true` exactly on the events that reach `debounceNotify`: a TikTok
`streamStart` always does; a parsed poll result does exactly when it is
live and the stored Twitch flag is still false. -/
def armsCond : Event → EntityState → Bool
  | .streamStart, _ => true
  | .poll (.json _ d), s => isLiveOf d && !s.twitch
  | _, _ => false

theorem pollCycle_truthy (dbg : Bool) (token : Option String) (jobs : List PollJob)
    (ht : tokenTruthy token = true) :
    pollCycle dbg token jobs =
      (token, jobs.map (fun j => checkBody dbg j.user j.resp j.st)) := by
  induction jobs with
  | nil => rfl
  | cons j rest ih => simp [pollCycle, checkTwitch, ht, ih]

/-! ### Claims -/

/-- Claim C1, counterexample: from the reachable state obtained by a TikTok
`streamStart` whose debounce timer has already fired (TikTok flag still
true, no pending timer), a Twitch poll that turns the polled flag from
false to true arms a fresh timer even though the combined liveness state
was already true before the observation — refuting "for every entity whose
other-platform flag is already true, a new false-to-true observation on
one platform never arms a timer". -/
theorem claim1_counterexample :
    (run false false "moneybooty" [Event.streamStart, Event.fire 0] initState).tiktok
        = true ∧
    (run false false "moneybooty" [Event.streamStart, Event.fire 0] initState).timeout
        = none ∧
    (run false false "moneybooty" [Event.streamStart, Event.fire 0] initState).twitch
        = false ∧
    (step false false "moneybooty" (Event.poll (PollResponse.json 200 (some 1)))
        (run false false "moneybooty" [Event.streamStart, Event.fire 0] initState)).timeout
        = some 1 := by
  decide

/-- Claim C1 as amended: an event arms a debounce timer (timeout handle
goes from `none` to non-`none`) exactly when no timer is pending and the
event reaches `debounceNotify` — a TikTok `streamStart` unconditionally,
or a live parsed poll while the Twitch flag is still false. The previous
combined (OR) state being already true does not prevent arming. -/
theorem claim1_arming_iff (d1 d2 : Bool) (u : String) (e : Event) (s : EntityState) :
    (s.timeout = none ∧ (step d1 d2 u e s).timeout ≠ none) ↔
    (s.timeout = none ∧ armsCond e s = true) := by
  constructor
  · rintro ⟨hs, hne⟩
    refine ⟨hs, ?_⟩
    cases e with
    | streamStart => rfl
    | streamEnd => exact absurd hs hne
    | pushError n m now =>
      exact absurd (((onErrorEvent_frame d1 u n m now s).2.2.1).trans hs) hne
    | poll resp =>
      cases resp with
      | netError n m => exact absurd ((checkBody_timeout_err d2 u n m s).1.trans hs) hne
      | badJson n m => exact absurd ((checkBody_timeout_err d2 u n m s).2.1.trans hs) hne
      | json st d =>
        by_cases hg : (isLiveOf d && !s.twitch) = true
        · exact hg
        · exact absurd
            (((checkBody_timeout_noguard d2 u st d s (by simpa using hg)).1).trans hs) hne
    | fire h =>
      exfalso
      apply hne
      by_cases hm : h ∈ s.pendingTimers
      · rw [step_fire_mem d1 d2 u h s hm]
        exact fireCallback_timeout u h s
      · rw [step_fire_not_mem d1 d2 u h s hm]
        exact hs
  · rintro ⟨hs, ha⟩
    refine ⟨hs, ?_⟩
    cases e with
    | streamStart =>
      show (debounceNotify .tiktok (logLine "TikTok" "LIVE" u "" s)).timeout ≠ none
      rw [debounceNotify_timeout_none Platform.tiktok (logLine "TikTok" "LIVE" u "" s) hs]
      simp
    | streamEnd => simp [armsCond] at ha
    | pushError n m now => simp [armsCond] at ha
    | poll resp =>
      cases resp with
      | netError n m => simp [armsCond] at ha
      | badJson n m => simp [armsCond] at ha
      | json st d =>
        have hg : (isLiveOf d && !s.twitch) = true := by simpa [armsCond] using ha
        show (checkBody d2 u (PollResponse.json st d) s).timeout ≠ none
        rw [(checkBody_arm d2 u st d s hs hg).1]
        simp
    | fire h => simp [armsCond] at ha

/-- Claim C2, counterexample: a second `streamStart` while the TikTok flag
is already true — arriving after the first armed timer has fired — arms a
second timer and leads to a second (duplicate) notification, refuting
"repeated push-platform stream-start signals while the push flag is
already true never arm a second timer or cause a second notification". -/
theorem claim2_counterexample :
    (run false false "u" [Event.streamStart, Event.fire 0] initState).tiktok = true ∧
    (run false false "u" [Event.streamStart, Event.fire 0] initState).timeout = none ∧
    (run false false "u" [Event.streamStart, Event.fire 0] initState).sent.length = 1 ∧
    (run false false "u" [Event.streamStart, Event.fire 0, Event.streamStart]
        initState).timeout = some 1 ∧
    (run false false "u" [Event.streamStart, Event.fire 0, Event.streamStart, Event.fire 1]
        initState).sent.length = 2 := by
  decide

/-- Claim C2 as amended: no observe event ever sends a notification by
itself; while a timer is pending no observe event re-arms, replaces or
extends it; the unconditional stream-end write never arms a timer; and a
repeated live poll result while the Twitch flag is already true never
re-arms, even after the previous timer has fired. (A repeated TikTok
`streamStart` after the previous timer fired does re-arm — see the
counterexample.) -/
theorem claim2_amended (d1 d2 : Bool) (u : String) (e : Event) (s : EntityState)
    (h : Nat) (st : Nat) (d : Option Nat) :
    (e.isFire = false → (step d1 d2 u e s).sent = s.sent) ∧
    (e.isFire = false → s.timeout = some h →
      (step d1 d2 u e s).timeout = some h ∧
      (step d1 d2 u e s).pendingTimers = s.pendingTimers) ∧
    ((step d1 d2 u Event.streamEnd s).timeout = s.timeout) ∧
    (s.twitch = true →
      (step d1 d2 u (Event.poll (PollResponse.json st d)) s).timeout = s.timeout) := by
  refine ⟨fun he => step_sent_nonfire d1 d2 u e s he,
    fun he hs => step_window d1 d2 u e s h he hs, rfl, fun htw => ?_⟩
  have hg : (isLiveOf d && !s.twitch) = false := by simp [htw]
  exact (checkBody_timeout_noguard d2 u st d s hg).1

/-- Witness for claim C2 as amended at concrete inputs. -/
theorem claim2_amended_witness :
    (step false false "u" Event.streamEnd initState).sent = initState.sent ∧
    (step false false "u" (Event.poll (PollResponse.json 200 (some 1)))
        (run false false "u" [Event.streamStart] initState)).timeout = some 0 := by
  constructor
  · exact (claim2_amended false false "u" Event.streamEnd initState 0 200 (some 1)).1
      (by decide)
  · exact ((claim2_amended false false "u" (Event.poll (PollResponse.json 200 (some 1)))
      (run false false "u" [Event.streamStart] initState) 0 200 (some 1)).2.1
      (by decide) (by decide)).1

theorem InvP_elim (o : Option Nat) (l : List Nat) (h : InvP o l) :
    (o = none ∧ l = []) ∨ (∃ k, o = some k ∧ l = [k]) := by
  cases o with
  | none => exact Or.inl ⟨rfl, h⟩
  | some k => exact Or.inr ⟨k, rfl, h⟩

/-- Claim C3, counterexample: a push stream-start followed within the
debounce window by a live poll result, then a stream-end and a not-live
poll before the timer expires, yields zero notifications for the armed
timer — refuting the unconditional "exactly one notification is sent for
that armed timer ... both-platforms-live template" reading that quantifies
over any additional observe calls during the pending window. -/
theorem claim3_counterexample :
    (run false false "u"
        [Event.streamStart, Event.poll (PollResponse.json 200 (some 1)), Event.streamEnd,
          Event.poll (PollResponse.json 200 (some 0)), Event.fire 0] initState).sent = []
      ∧
    (run false false "u"
        [Event.streamStart, Event.poll (PollResponse.json 200 (some 1)), Event.streamEnd,
          Event.poll (PollResponse.json 200 (some 0)), Event.fire 0] initState).timeout =
      none ∧
    (run false false "u"
        [Event.streamStart, Event.poll (PollResponse.json 200 (some 1)), Event.streamEnd,
          Event.poll (PollResponse.json 200 (some 0)), Event.fire 0]
        initState).pendingTimers = [] := by
  decide

/-- Claim C3 as amended: for an entity with no pending timer, a push
stream-start arms one timer; during the whole pending window no further
observe event sends anything; when the timer fires, at most one
notification is sent, its content rendered from the flags as they stand
at fire time; and in the coalescing case — the only additional observe
during the window being a live poll result — exactly one notification is
sent and it is the both-platforms-live one. -/
theorem claim3_coalescing (d1 d2 : Bool) (u : String) (s : EntityState)
    (evs : List Event) (st n : Nat) (hi : Inv s) (hs : s.timeout = none)
    (hf : fireFree evs = true) :
    ((run d1 d2 u evs (step d1 d2 u Event.streamStart s)).sent = s.sent) ∧
    ((step d1 d2 u (Event.fire s.nextHandle)
        (run d1 d2 u evs (step d1 d2 u Event.streamStart s))).sent =
      (run d1 d2 u evs (step d1 d2 u Event.streamStart s)).sent ++
        (notificationContent u
          (run d1 d2 u evs (step d1 d2 u Event.streamStart s)).tiktok
          (run d1 d2 u evs (step d1 d2 u Event.streamStart s)).twitch).toList) ∧
    (evs = [Event.poll (PollResponse.json st (some (n + 1)))] →
      (step d1 d2 u (Event.fire s.nextHandle)
          (run d1 d2 u evs (step d1 d2 u Event.streamStart s))).sent =
        s.sent ++ (notificationContent u true true).toList) := by
  have hp : s.pendingTimers = [] := by
    rcases InvP_elim _ _ hi with ⟨_, hp⟩ | ⟨k, hk, _⟩
    · exact hp
    · rw [hs] at hk
      cases hk
  have h1 : (step d1 d2 u Event.streamStart s).timeout = some s.nextHandle := by
    show (debounceNotify .tiktok (logLine "TikTok" "LIVE" u "" s)).timeout = some s.nextHandle
    rw [debounceNotify_timeout_none Platform.tiktok (logLine "TikTok" "LIVE" u "" s) hs]
    rfl
  have h2 : (step d1 d2 u Event.streamStart s).pendingTimers = [s.nextHandle] := by
    show (debounceNotify .tiktok (logLine "TikTok" "LIVE" u "" s)).pendingTimers =
      [s.nextHandle]
    rw [debounceNotify_pending_none Platform.tiktok (logLine "TikTok" "LIVE" u "" s) hs]
    simp [logLine, hp]
  have h3 : (step d1 d2 u Event.streamStart s).sent = s.sent :=
    step_sent_nonfire d1 d2 u Event.streamStart s rfl
  have h4 : (step d1 d2 u Event.streamStart s).tiktok = true := by
    show (debounceNotify .tiktok (logLine "TikTok" "LIVE" u "" s)).tiktok = true
    exact debounceNotify_tiktok_tiktok _
  have hw := run_window d1 d2 u evs (step d1 d2 u Event.streamStart s) s.nextHandle hf h1
  have hmem : s.nextHandle ∈
      (run d1 d2 u evs (step d1 d2 u Event.streamStart s)).pendingTimers := by
    rw [hw.2.1, h2]
    exact List.mem_singleton.mpr rfl
  have hfire := step_fire_mem d1 d2 u s.nextHandle
    (run d1 d2 u evs (step d1 d2 u Event.streamStart s)) hmem
  have hsent1 : (run d1 d2 u evs (step d1 d2 u Event.streamStart s)).sent = s.sent := by
    rw [hw.2.2, h3]
  refine ⟨hsent1, ?_, ?_⟩
  · rw [hfire]
    exact fireCallback_sent u s.nextHandle _
  · intro heq
    subst heq
    have htik : (run d1 d2 u [Event.poll (PollResponse.json st (some (n + 1)))]
        (step d1 d2 u Event.streamStart s)).tiktok = true := by
      rw [run_cons]
      show (run d1 d2 u [] (checkBody d2 u (PollResponse.json st (some (n + 1)))
        (step d1 d2 u Event.streamStart s))).tiktok = true
      show (checkBody d2 u (PollResponse.json st (some (n + 1)))
        (step d1 d2 u Event.streamStart s)).tiktok = true
      rw [checkBody_tiktok, h4]
    have htw : (run d1 d2 u [Event.poll (PollResponse.json st (some (n + 1)))]
        (step d1 d2 u Event.streamStart s)).twitch = true := by
      rw [run_cons]
      show (checkBody d2 u (PollResponse.json st (some (n + 1)))
        (step d1 d2 u Event.streamStart s)).twitch = true
      rw [checkBody_twitch_json]
      simp [isLiveOf]
    rw [hfire, fireCallback_sent, htik, htw, hsent1]

/-- Witness for claim C3 as amended: the concrete coalescing run — a push
stream-start, then one live poll, then the timer firing — sends exactly
the both-platforms-live notification. -/
theorem claim3_coalescing_witness :
    (step false false "u" (Event.fire initState.nextHandle)
        (run false false "u" [Event.poll (PollResponse.json 200 (some 1))]
          (step false false "u" Event.streamStart initState))).sent =
      initState.sent ++ (notificationContent "u" true true).toList :=
  (claim3_coalescing false false "u" initState
    [Event.poll (PollResponse.json 200 (some 1))] 200 0 (by decide) (by decide)
    (by decide)).2.2 rfl

/-- Claim C4: when the armed debounce callback fires after any fire-free
window, it clears the stored handle and the scheduled-callback list, the
notification it attempts is rendered from the flags as they stand at fire
time (not the arm-time values), nothing at all is sent when both flags
are false at fire time, and the entity can be re-armed afterwards. -/
theorem claim4_fire_fresh (d1 d2 : Bool) (u : String) (s : EntityState) (h : Nat)
    (evs : List Event) (hi : Inv s) (hs : s.timeout = some h)
    (hf : fireFree evs = true) :
    ((step d1 d2 u (Event.fire h) (run d1 d2 u evs s)).timeout = none) ∧
    ((step d1 d2 u (Event.fire h) (run d1 d2 u evs s)).pendingTimers = []) ∧
    ((step d1 d2 u (Event.fire h) (run d1 d2 u evs s)).sent =
      (run d1 d2 u evs s).sent ++
        (notificationContent u (run d1 d2 u evs s).tiktok
          (run d1 d2 u evs s).twitch).toList) ∧
    ((run d1 d2 u evs s).tiktok = false → (run d1 d2 u evs s).twitch = false →
      (step d1 d2 u (Event.fire h) (run d1 d2 u evs s)).sent =
        (run d1 d2 u evs s).sent) ∧
    ((step d1 d2 u Event.streamStart
        (step d1 d2 u (Event.fire h) (run d1 d2 u evs s))).timeout ≠ none) := by
  have hp : s.pendingTimers = [h] := by
    rcases InvP_elim _ _ hi with ⟨hk, _⟩ | ⟨k, hk, hpk⟩
    · rw [hs] at hk
      cases hk
    · rw [hs] at hk
      cases hk
      exact hpk
  have hw := run_window d1 d2 u evs s h hf hs
  have hmem : h ∈ (run d1 d2 u evs s).pendingTimers := by
    rw [hw.2.1, hp]
    exact List.mem_singleton.mpr rfl
  have hfire := step_fire_mem d1 d2 u h (run d1 d2 u evs s) hmem
  have hto : (step d1 d2 u (Event.fire h) (run d1 d2 u evs s)).timeout = none := by
    rw [hfire]
    exact fireCallback_timeout u h _
  have hsent : (step d1 d2 u (Event.fire h) (run d1 d2 u evs s)).sent =
      (run d1 d2 u evs s).sent ++
        (notificationContent u (run d1 d2 u evs s).tiktok
          (run d1 d2 u evs s).twitch).toList := by
    rw [hfire]
    exact fireCallback_sent u h _
  refine ⟨hto, ?_, hsent, ?_, ?_⟩
  · rw [hfire, fireCallback_pending, hw.2.1, hp]
    simp
  · intro ht htw
    rw [hsent, ht, htw]
    simp [notificationContent]
  · show (debounceNotify .tiktok (logLine "TikTok" "LIVE" u ""
      (step d1 d2 u (Event.fire h) (run d1 d2 u evs s)))).timeout ≠ none
    rw [debounceNotify_timeout_none Platform.tiktok
      (logLine "TikTok" "LIVE" u "" (step d1 d2 u (Event.fire h) (run d1 d2 u evs s))) hto]
    simp

/-- Witness for claim C4 at concrete inputs: the decay scenario — arm by
stream-start, stream-end inside the window, then fire — sends nothing. -/
theorem claim4_fire_fresh_witness :
    (step false false "u" (Event.fire 0)
        (run false false "u" [Event.streamEnd]
          (run false false "u" [Event.streamStart] initState))).sent =
      (run false false "u" [Event.streamEnd]
        (run false false "u" [Event.streamStart] initState)).sent :=
  (claim4_fire_fresh false false "u" (run false false "u" [Event.streamStart] initState)
    0 [Event.streamEnd] (by decide) (by decide) (by decide)).2.2.2.1
    (by decide) (by decide)

/-- Claim C5: along every event trace from the startup state, each entity
has at most one scheduled debounce callback, and the stored timeout handle
is non-null exactly when one is scheduled. -/
theorem claim5_single_timer (d1 d2 : Bool) (u : String) (evs : List Event) :
    (run d1 d2 u evs initState).pendingTimers.length ≤ 1 ∧
    ((run d1 d2 u evs initState).timeout ≠ none ↔
      (run d1 d2 u evs initState).pendingTimers ≠ []) := by
  have hi : Inv (run d1 d2 u evs initState) :=
    Inv_run d1 d2 u evs initState rfl
  rcases InvP_elim _ _ hi with ⟨ht, hp⟩ | ⟨k, ht, hp⟩ <;> rw [ht, hp] <;> simp

/-- Claim C6: the push stream-end handler writes the TikTok flag to false
unconditionally and changes nothing else: the Twitch flag, the stored
timeout handle, the scheduled callbacks, the sent notifications, the
handle counter and the error-throttle map are all untouched (so an armed
timer is never cancelled by it), and exactly one INFO log line is added. -/
theorem claim6_stream_end_frame (d1 d2 : Bool) (u : String) (s : EntityState) :
    (step d1 d2 u Event.streamEnd s).tiktok = false ∧
    (step d1 d2 u Event.streamEnd s).twitch = s.twitch ∧
    (step d1 d2 u Event.streamEnd s).timeout = s.timeout ∧
    (step d1 d2 u Event.streamEnd s).pendingTimers = s.pendingTimers ∧
    (step d1 d2 u Event.streamEnd s).sent = s.sent ∧
    (step d1 d2 u Event.streamEnd s).nextHandle = s.nextHandle ∧
    (step d1 d2 u Event.streamEnd s).lastErrorAt = s.lastErrorAt ∧
    (step d1 d2 u Event.streamEnd s).logs =
      s.logs ++ [⟨"TikTok", "INFO", u, "stream ended"⟩] :=
  ⟨rfl, rfl, rfl, rfl, rfl, rfl, rfl, rfl⟩

/-- Claim C7, counterexample: a non-2xx response whose body still parses
as JSON (here status 500 with no `data` array) is not treated as a
failure: no ERROR line is logged and the Twitch flag, previously true, is
overwritten to false — refuting "a request failure (network error,
malformed response, non-2xx) ... is caught per-entity and logged, leaves
that entity liveness flag unchanged". -/
theorem claim7_counterexample :
    (run false false "u" [Event.poll (PollResponse.json 200 (some 1)), Event.fire 0]
        initState).twitch = true ∧
    (checkBody false "u" (PollResponse.json 500 none)
        (run false false "u" [Event.poll (PollResponse.json 200 (some 1)), Event.fire 0]
          initState)).twitch = false ∧
    ((checkBody false "u" (PollResponse.json 500 none)
        (run false false "u" [Event.poll (PollResponse.json 200 (some 1)), Event.fire 0]
          initState)).logs.filter (fun l => l.level == "ERROR")).length = 0 := by
  decide

/-- Claim C7 as amended: a rejected fetch or an unparseable body is caught
per-entity — one ERROR line is logged and the flags, timers and sent
notifications of that entity are unchanged — and, with a truthy cached
token, a poll cycle processes every entity with its own response
independently (no failure aborts the remaining entities). A non-2xx
response with a parseable JSON body is, however, not a failure path: the
status code is ignored and the body overwrites the flag. -/
theorem claim7_poll_failure (dbg : Bool) (u n m : String) (s : EntityState)
    (token : Option String) (jobs : List PollJob) :
    ((checkBody dbg u (.netError n m) s).tiktok = s.tiktok ∧
     (checkBody dbg u (.netError n m) s).twitch = s.twitch ∧
     (checkBody dbg u (.netError n m) s).timeout = s.timeout ∧
     (checkBody dbg u (.netError n m) s).pendingTimers = s.pendingTimers ∧
     (checkBody dbg u (.netError n m) s).sent = s.sent ∧
     (checkBody dbg u (.netError n m) s).logs =
       s.logs ++ [⟨"Twitch", "INFO", u, "polling…"⟩] ++
         [⟨"Twitch", "ERROR", u, if dbg then n ++ ": " ++ m else m⟩]) ∧
    ((checkBody dbg u (.badJson n m) s).tiktok = s.tiktok ∧
     (checkBody dbg u (.badJson n m) s).twitch = s.twitch ∧
     (checkBody dbg u (.badJson n m) s).timeout = s.timeout ∧
     (checkBody dbg u (.badJson n m) s).pendingTimers = s.pendingTimers ∧
     (checkBody dbg u (.badJson n m) s).sent = s.sent ∧
     (checkBody dbg u (.badJson n m) s).logs =
       s.logs ++ [⟨"Twitch", "INFO", u, "polling…"⟩] ++
         [⟨"Twitch", "ERROR", u, if dbg then n ++ ": " ++ m else m⟩]) ∧
    (tokenTruthy token = true →
      (pollCycle dbg token jobs).2 =
        jobs.map (fun j => checkBody dbg j.user j.resp j.st)) := by
  refine ⟨⟨rfl, rfl, rfl, rfl, rfl, rfl⟩, ⟨rfl, rfl, rfl, rfl, rfl, rfl⟩, fun ht => ?_⟩
  rw [pollCycle_truthy dbg token jobs ht]

/-- Witness for claim C7 as amended: a two-entity cycle in which the first
entity's fetch rejects still checks the second entity with its own
response. -/
theorem claim7_poll_failure_witness :
    (pollCycle false (some "tok")
        [⟨"a", ExchangeOutcome.throw, PollResponse.netError "FetchError" "refused",
            initState⟩,
          ⟨"b", ExchangeOutcome.throw, PollResponse.json 200 (some 1), initState⟩]).2 =
      [checkBody false "a" (PollResponse.netError "FetchError" "refused") initState,
        checkBody false "b" (PollResponse.json 200 (some 1)) initState] :=
  (claim7_poll_failure false "x" "y" "z" initState (some "tok")
    [⟨"a", ExchangeOutcome.throw, PollResponse.netError "FetchError" "refused",
        initState⟩,
      ⟨"b", ExchangeOutcome.throw, PollResponse.json 200 (some 1), initState⟩]).2.2
    (by rfl)

/-- Claim C8: a truthy cached token is used as-is — the call's outcome does
not depend on what an exchange would return and the token is unchanged; an
absent token triggers the exchange, whose result is cached (a thrown
exchange aborts the call leaving everything unchanged); and across a whole
poll cycle a truthy token is never replaced or invalidated, whatever the
responses (including 401-class ones) were. -/
theorem claim8_token_cache (dbg : Bool) (u : String) (exch exch2 : ExchangeOutcome)
    (t : Option String) (resp : PollResponse) (token : Option String) (s : EntityState)
    (jobs : List PollJob) :
    (tokenTruthy token = true →
      checkTwitch dbg u exch resp token s = (token, checkBody dbg u resp s)) ∧
    (tokenTruthy token = true →
      checkTwitch dbg u exch resp token s = checkTwitch dbg u exch2 resp token s) ∧
    (tokenTruthy token = false →
      checkTwitch dbg u (.ok t) resp token s = (t, checkBody dbg u resp s)) ∧
    (tokenTruthy token = false →
      checkTwitch dbg u .throw resp token s = (token, s)) ∧
    (tokenTruthy token = true → (pollCycle dbg token jobs).1 = token) := by
  refine ⟨fun ht => ?_, fun ht => ?_, fun ht => ?_, fun ht => ?_, fun ht => ?_⟩
  · simp [checkTwitch, ht]
  · simp [checkTwitch, ht]
  · simp [checkTwitch, ht]
  · simp [checkTwitch, ht]
  · rw [pollCycle_truthy dbg token jobs ht]

/-- Witness for claim C8: a cycle whose only job gets a 401-style response
(and whose exchange would throw) leaves the cached token untouched. -/
theorem claim8_token_cache_witness :
    (pollCycle false (some "tok")
        [⟨"u", ExchangeOutcome.throw, PollResponse.json 401 none, initState⟩]).1 =
      some "tok" :=
  (claim8_token_cache false "u" ExchangeOutcome.throw ExchangeOutcome.throw none
    (PollResponse.json 401 none) (some "tok") initState
    [⟨"u", ExchangeOutcome.throw, PollResponse.json 401 none, initState⟩]).2.2.2.2
    (by rfl)

/-- Claim C9, counterexample: with the TikTok debug flag off, a fresh
(never-seen, hence unsuppressed) push error event produces no log line at
all, refuting "for every push-platform error event, the event is
logged"; flipping only the debug flag makes the same event log one line,
locating the cause at the `debugTikTok` gate. -/
theorem claim9_counterexample :
    initState.lastErrorAt = [] ∧
    ¬ (100000 - lookupLast (errKey "u" "Err" "boom") initState.lastErrorAt < 30000) ∧
    (step false false "u" (Event.pushError "Err" "boom" 100000) initState).logs = [] ∧
    (step true false "u" (Event.pushError "Err" "boom" 100000) initState).logs.length
      = 1 := by
  decide

/-- Claim C9 as amended: a push error event never changes the liveness
flags, the timer state or the sent notifications; with the debug flag off
it does nothing at all (not even a log); with the debug flag on it is
suppressed when an identical error was recorded less than 30 s ago, and
otherwise logs exactly one ERROR line and records the time under the
(entity, error-name, error-message) key. -/
theorem claim9_error_handler (d1 d2 : Bool) (u n m : String) (now : Nat)
    (s : EntityState) :
    ((step d1 d2 u (Event.pushError n m now) s).tiktok = s.tiktok ∧
     (step d1 d2 u (Event.pushError n m now) s).twitch = s.twitch ∧
     (step d1 d2 u (Event.pushError n m now) s).timeout = s.timeout ∧
     (step d1 d2 u (Event.pushError n m now) s).pendingTimers = s.pendingTimers ∧
     (step d1 d2 u (Event.pushError n m now) s).sent = s.sent) ∧
    (d1 = false → step d1 d2 u (Event.pushError n m now) s = s) ∧
    (d1 = true → now - lookupLast (errKey u n m) s.lastErrorAt < 30000 →
      step d1 d2 u (Event.pushError n m now) s = s) ∧
    (d1 = true → ¬ now - lookupLast (errKey u n m) s.lastErrorAt < 30000 →
      (step d1 d2 u (Event.pushError n m now) s).logs =
        s.logs ++ [⟨"TikTok", "ERROR", u, n ++ ": " ++ m⟩] ∧
      (step d1 d2 u (Event.pushError n m now) s).lastErrorAt =
        setLast (errKey u n m) now s.lastErrorAt) := by
  refine ⟨onErrorEvent_frame d1 u n m now s, fun hd => ?_, fun hd hlt => ?_,
    fun hd hge => ?_⟩
  · subst hd
    rfl
  · subst hd
    show onErrorEvent true u n m now s = s
    simp [onErrorEvent, hlt]
  · subst hd
    constructor
    · show (onErrorEvent true u n m now s).logs = _
      simp [onErrorEvent, hge, logLine]
    · show (onErrorEvent true u n m now s).lastErrorAt = _
      simp [onErrorEvent, hge, logLine]

/-- Witness for claim C9 as amended at concrete inputs: with the debug
flag off the handler is the identity. -/
theorem claim9_error_handler_witness :
    step false false "u" (Event.pushError "E" "x" 5) initState = initState :=
  (claim9_error_handler false false "u" "E" "x" 5 initState).2.1 rfl

/-- Claim C10: a not-live poll result overwrites the Twitch flag with
false, arms no timer, sends nothing, and leaves everything else of the
entity unchanged; the push stream-end likewise sends nothing; and the
neither-live content is `none` — there is no went-offline notification
path on either platform. -/
theorem claim10_offline_silent (d1 d2 : Bool) (u : String) (st : Nat) (d : Option Nat)
    (s : EntityState) (hl : isLiveOf d = false) :
    (checkBody d2 u (.json st d) s).twitch = false ∧
    (checkBody d2 u (.json st d) s).tiktok = s.tiktok ∧
    (checkBody d2 u (.json st d) s).timeout = s.timeout ∧
    (checkBody d2 u (.json st d) s).pendingTimers = s.pendingTimers ∧
    (checkBody d2 u (.json st d) s).sent = s.sent ∧
    (step d1 d2 u Event.streamEnd s).sent = s.sent ∧
    notificationContent u false false = none := by
  have hg : (isLiveOf d && !s.twitch) = false := by simp [hl]
  refine ⟨?_, checkBody_tiktok d2 u _ s, (checkBody_timeout_noguard d2 u st d s hg).1,
    (checkBody_timeout_noguard d2 u st d s hg).2, checkBody_sent d2 u _ s, rfl, ?_⟩
  · rw [checkBody_twitch_json, hl]
  · simp [notificationContent]

/-- Witness for claim C10: a not-live poll on an entity whose Twitch flag
is currently true (a true-to-false transition) sets the flag to false. -/
theorem claim10_offline_silent_witness :
    (checkBody false "u" (PollResponse.json 200 none)
        (run false false "u" [Event.poll (PollResponse.json 200 (some 1)), Event.fire 0]
          initState)).twitch = false :=
  (claim10_offline_silent false false "u" 200 none
    (run false false "u" [Event.poll (PollResponse.json 200 (some 1)), Event.fire 0]
      initState) (by decide)).1

end StreamNotifier
